import Mathlib

/-
Verification of the pollutant-analysis core of the air-sense-explorer
dashboard.  The analyzer in `src/services/airQualityService.ts` classifies
each pollutant of a reading against fixed thresholds, collects the
significant ones, their declared emission sources and their health-effect
texts.  A second, divergent analyzer lives in `src/services/inputHandle.ts`
and a third severity computation in `src/components/CurrentDataCard.tsx`.
Concentrations are embedded as rationals; a reading is the entry list of a
JavaScript object, i.e. an association list of key/value pairs whose keys
are pairwise distinct.
-/

/-- The four ascending band boundaries attached to every pollutant
(`thresholds` in both `pollutantInfo` tables). -/
structure Thresholds where
  good : ℚ
  fair : ℚ
  moderate : ℚ
  poor : ℚ

/-- One entry of the `pollutantInfo` record of
`src/services/airQualityService.ts`. -/
structure PollutantDef where
  name : String
  fullName : String
  description : String
  unit : String
  thresholds : Thresholds
  healthEffects : String
  sources : List String

/-- The `pollutantInfo` record of `src/services/airQualityService.ts`,
in its property order, as an association list. -/
def pollutantInfoList : List (String × PollutantDef) :=
  [("co",
    { name := "CO"
      fullName := "Carbon Monoxide"
      description := "Carbon monoxide is a colorless, odorless gas produced by incomplete combustion of carbon-containing fuels."
      unit := "μg/m³"
      thresholds := { good := 4400, fair := 9400, moderate := 12400, poor := 15400 }
      healthEffects := "Carbon monoxide reduces the blood's ability to carry oxygen. Low levels can cause dizziness, headaches, and fatigue. High levels can be fatal."
      sources := ["Vehicle exhaust", "Coal and wood burning", "Gas furnaces and stoves", "Industrial processes"] }),
   ("no2",
    { name := "NO₂"
      fullName := "Nitrogen Dioxide"
      description := "Nitrogen dioxide is a reddish-brown gas with a sharp odor. It's part of a group of pollutants called nitrogen oxides (NOx)."
      unit := "μg/m³"
      thresholds := { good := 40, fair := 70, moderate := 150, poor := 200 }
      healthEffects := "NO₂ can irritate the respiratory system, worsen asthma, and contribute to the development of respiratory infections. Long-term exposure may lead to respiratory diseases."
      sources := ["Vehicle emissions", "Power plants", "Industrial processes", "Gas stoves and heaters"] }),
   ("o3",
    { name := "O₃"
      fullName := "Ozone"
      description := "Ozone at ground level is a harmful air pollutant formed when nitrogen oxides and volatile organic compounds react in sunlight."
      unit := "μg/m³"
      thresholds := { good := 60, fair := 100, moderate := 140, poor := 180 }
      healthEffects := "Ozone can cause coughing, throat irritation, chest pain, and reduced lung function. It can worsen asthma, bronchitis, and emphysema."
      sources := ["Vehicle exhaust", "Industrial emissions", "Chemical solvents", "Created by sunlight reacting with other pollutants"] }),
   ("so2",
    { name := "SO₂"
      fullName := "Sulfur Dioxide"
      description := "Sulfur dioxide is a colorless gas with a sharp odor. It's produced by burning fossil fuels containing sulfur."
      unit := "μg/m³"
      thresholds := { good := 20, fair := 80, moderate := 250, poor := 350 }
      healthEffects := "SO₂ irritates the respiratory system, causing coughing, mucus secretion, and aggravation of asthma. Long-term exposure may contribute to respiratory illnesses."
      sources := ["Coal and oil burning power plants", "Industrial processes", "Smelters", "Diesel vehicles"] }),
   ("pm2_5",
    { name := "PM2.5"
      fullName := "Fine Particulate Matter"
      description := "PM2.5 refers to tiny particles or droplets in the air that are 2.5 micrometers or less in width."
      unit := "μg/m³"
      thresholds := { good := 10, fair := 25, moderate := 50, poor := 75 }
      healthEffects := "PM2.5 can penetrate deep into the lungs and even enter the bloodstream, causing respiratory and cardiovascular problems, including irregular heartbeat and premature death in people with heart or lung disease."
      sources := ["Vehicle exhaust", "Power plants", "Wood burning", "Industrial processes", "Wildfires"] }),
   ("pm10",
    { name := "PM10"
      fullName := "Coarse Particulate Matter"
      description := "PM10 refers to inhalable particles with diameters generally 10 micrometers and smaller."
      unit := "μg/m³"
      thresholds := { good := 20, fair := 50, moderate := 100, poor := 200 }
      healthEffects := "PM10 can irritate the eyes, nose, and throat, and can cause respiratory issues, especially for people with existing conditions like asthma."
      sources := ["Dust from roads and construction", "Agricultural operations", "Industrial processes", "Pollen and mold spores"] }),
   ("nh3",
    { name := "NH₃"
      fullName := "Ammonia"
      description := "Ammonia is a colorless gas with a pungent odor. It's an important source of nitrogen for plants and agriculture."
      unit := "μg/m³"
      thresholds := { good := 100, fair := 200, moderate := 400, poor := 800 }
      healthEffects := "Ammonia can irritate the respiratory tract, eyes, and skin. High concentrations can cause coughing and breathing difficulty."
      sources := ["Agricultural activities", "Livestock waste", "Fertilizer application", "Industrial processes"] })]

/-- String-keyed lookup into the record, `pollutantInfo[key]` returning
`undefined` for an unknown key. -/
def pollutantInfo (k : String) : Option PollutantDef :=
  pollutantInfoList.lookup k

/-- The status chain of `analyzePollutants`
(`src/services/airQualityService.ts` lines 251-262): each comparison is
`value >= boundary`. -/
def pollutantStatus (t : Thresholds) (v : ℚ) : String :=
  if v ≥ t.poor then "Very High"
  else if v ≥ t.moderate then "High"
  else if v ≥ t.fair then "Moderate"
  else if v ≥ t.good then "Elevated"
  else "Low"

/-- One element of the `results` array built by `analyzePollutants`. -/
structure PollutantEntry where
  key : String
  name : String
  fullName : String
  value : ℚ
  unit : String
  status : String

/-- The object literal returned for one known `[key, value]` pair. -/
def mkEntry (p : String × ℚ) (info : PollutantDef) : PollutantEntry :=
  { key := p.1
    name := info.name
    fullName := info.fullName
    value := p.2
    unit := info.unit
    status := pollutantStatus info.thresholds p.2 }

/-- The body of the `map` callback: `null` for an unknown key. -/
def entryOf (p : String × ℚ) : Option PollutantEntry :=
  match pollutantInfo p.1 with
  | none => none
  | some info => some (mkEntry p info)

/-- `Object.entries(components).map(...).filter(Boolean)`. -/
def pollutantResults (components : List (String × ℚ)) : List PollutantEntry :=
  components.filterMap entryOf

/-- The significance test `p.status === "High" || p.status === "Very High"`
applied twice in `analyzePollutants`. -/
def isSignificant (e : PollutantEntry) : Bool :=
  e.status == "High" || e.status == "Very High"

/-- Adding one string to a JavaScript `Set` whose iteration order is
insertion order: a repeated element is dropped, a new one goes to the end. -/
def insertDedup (acc : List String) (s : String) : List String :=
  if s ∈ acc then acc else acc ++ [s]

/-- `Array.from` of a `Set` filled from a list, left to right. -/
def dedupFirst (l : List String) : List String :=
  l.foldl insertDedup []

/-- `significantPollutants`: names of the entries whose status is High or
Very High. -/
def significantNames (rs : List PollutantEntry) : List String :=
  (rs.filter isSignificant).map (fun e => e.name)

/-- `potentialSources`: every significant entry adds its pollutant's
declared sources to one shared `Set`. -/
def collectedSources (rs : List PollutantEntry) : List String :=
  (rs.filter isSignificant).foldl
    (fun acc e =>
      match pollutantInfo e.key with
      | some info => info.sources.foldl insertDedup acc
      | none => acc) []

/-- `healthImplications`: every entry whose status is not Low adds its
pollutant's `healthEffects` text to one shared `Set`. -/
def collectedHealth (rs : List PollutantEntry) : List String :=
  (rs.filter (fun e => !(e.status == "Low"))).foldl
    (fun acc e =>
      match pollutantInfo e.key with
      | some info => insertDedup acc info.healthEffects
      | none => acc) []

/-- The value returned by `analyzePollutants`: the per-pollutant entries
plus the three derived properties attached to the array. -/
structure AnalysisResult where
  entries : List PollutantEntry
  significantPollutants : List String
  potentialSources : List String
  healthImplications : List String

/-- `analyzePollutants` of `src/services/airQualityService.ts`
(lines 246-307). -/
def analyzePollutants (components : List (String × ℚ)) : AnalysisResult :=
  let rs := pollutantResults components
  { entries := rs
    significantPollutants := significantNames rs
    potentialSources := collectedSources rs
    healthImplications := collectedHealth rs }

/-- The `AirPollutionComponents` interface of `src/types/airQuality.ts`. -/
structure AirPollutionComponents where
  co : ℚ
  no : ℚ
  no2 : ℚ
  o3 : ℚ
  so2 : ℚ
  pm2_5 : ℚ
  pm10 : ℚ
  nh3 : ℚ

/-- `Object.entries` of a typed components record, in the declaration
order of the interface fields. -/
def componentEntries (c : AirPollutionComponents) : List (String × ℚ) :=
  [("co", c.co), ("no", c.no), ("no2", c.no2), ("o3", c.o3),
   ("so2", c.so2), ("pm2_5", c.pm2_5), ("pm10", c.pm10), ("nh3", c.nh3)]

namespace InputHandle

/-- One entry of the `pollutantInfo` object of
`src/services/inputHandle.ts` (its `sources` is a single sentence, not a
list, and the field order differs from the other table). -/
structure PollutantDef where
  name : String
  fullName : String
  unit : String
  description : String
  sources : String
  healthEffects : String
  thresholds : Thresholds

/-- `pollutantInfo.co` of `src/services/inputHandle.ts`. -/
def co : PollutantDef :=
  { name := "CO"
    fullName := "Carbon Monoxide"
    unit := "μg/m³"
    description := "A toxic gas formed by incomplete combustion of carbon-containing fuels."
    sources := "Vehicle exhaust, industrial processes, and wood burning are major sources."
    healthEffects := "Reduces oxygen delivery to organs and tissues, can cause headaches, dizziness, and at high concentrations, death."
    thresholds := { good := 4400, fair := 9400, moderate := 12400, poor := 15400 } }

/-- `pollutantInfo.no2` of `src/services/inputHandle.ts`. -/
def no2 : PollutantDef :=
  { name := "NO₂"
    fullName := "Nitrogen Dioxide"
    unit := "μg/m³"
    description := "A reddish-brown gas with a sharp, harsh odor."
    sources := "Vehicle emissions, power plants, and industrial processes."
    healthEffects := "Can irritate airways, aggravate respiratory diseases, contribute to the development of asthma and potentially increase susceptibility to respiratory infections."
    thresholds := { good := 40, fair := 70, moderate := 150, poor := 200 } }

/-- `pollutantInfo.o3` of `src/services/inputHandle.ts`. -/
def o3 : PollutantDef :=
  { name := "O₃"
    fullName := "Ozone"
    unit := "μg/m³"
    description := "A colorless gas formed through reactions between NOx and VOCs in the presence of sunlight."
    sources := "Not directly emitted but formed from reactions involving nitrogen oxides and volatile organic compounds in sunlight."
    healthEffects := "Can cause chest pain, coughing, throat irritation, and airway inflammation. It can worsen bronchitis, emphysema, and asthma."
    thresholds := { good := 60, fair := 100, moderate := 140, poor := 180 } }

/-- `pollutantInfo.so2` of `src/services/inputHandle.ts`. -/
def so2 : PollutantDef :=
  { name := "SO₂"
    fullName := "Sulfur Dioxide"
    unit := "μg/m³"
    description := "A colorless gas with a strong odor."
    sources := "Fossil fuel combustion at power plants, industrial processes, and burning high-sulfur containing fuels."
    healthEffects := "Affects the respiratory system, causing irritation and inflammation. Can aggravate asthma and make breathing difficult."
    thresholds := { good := 20, fair := 80, moderate := 250, poor := 350 } }

/-- `pollutantInfo.pm2_5` of `src/services/inputHandle.ts`. -/
def pm2_5 : PollutantDef :=
  { name := "PM2.5"
    fullName := "Fine Particles"
    unit := "μg/m³"
    description := "Tiny particles with a diameter of 2.5 micrometers or less that can penetrate deep into the lungs."
    sources := "Combustion sources, vehicle emissions, industrial processes, and natural sources like dust and wildfires."
    healthEffects := "Can penetrate deep into the lungs and even enter the bloodstream, leading to respiratory and cardiovascular problems, and premature death in people with heart or lung disease."
    thresholds := { good := 10, fair := 25, moderate := 50, poor := 75 } }

/-- `pollutantInfo.pm10` of `src/services/inputHandle.ts`. -/
def pm10 : PollutantDef :=
  { name := "PM10"
    fullName := "Coarse Particles"
    unit := "μg/m³"
    description := "Inhalable particles with a diameter of 10 micrometers or less."
    sources := "Dust, pollen, mold, and some combustion processes."
    healthEffects := "Can cause respiratory issues, aggravate asthma, and contribute to heart and lung diseases."
    thresholds := { good := 20, fair := 50, moderate := 100, poor := 200 } }

/-- `pollutantInfo.nh3` of `src/services/inputHandle.ts`. -/
def nh3 : PollutantDef :=
  { name := "NH₃"
    fullName := "Ammonia"
    unit := "μg/m³"
    description := "A colorless gas with a pungent odor."
    sources := "Agricultural activities, livestock waste, and fertilizer application."
    healthEffects := "Can irritate the respiratory tract and eyes. Also contributes to the formation of secondary particulate matter."
    thresholds := { good := 200, fair := 400, moderate := 800, poor := 1200 } }

/-- The `pollutantInfo` object of `src/services/inputHandle.ts` as an
association list, in its property order. -/
def pollutantInfoList : List (String × PollutantDef) :=
  [("co", co), ("no2", no2), ("o3", o3), ("so2", so2),
   ("pm2_5", pm2_5), ("pm10", pm10), ("nh3", nh3)]

/-- String-keyed lookup into the inputHandle table. -/
def pollutantInfo (k : String) : Option PollutantDef :=
  pollutantInfoList.lookup k

/-- The `concerns` and `recommendations` arrays returned by the
`analyzePollutants` of `src/services/inputHandle.ts`. -/
structure Advice where
  concerns : List String
  recommendations : List String

/-- `analyzePollutants` of `src/services/inputHandle.ts` (lines 224-254):
it checks only PM2.5, O₃ and NO₂, each with a strict `>` against that
pollutant's `moderate` threshold, and falls back to a canned acceptable
message when no concern was pushed. -/
def analyzePollutants (components : AirPollutionComponents) : Advice :=
  let pm : List String × List String :=
    if components.pm2_5 > pm2_5.thresholds.moderate then
      (["High levels of fine particulate matter (PM2.5)"],
       ["Consider using an air purifier indoors",
        "Limit outdoor activities, especially for sensitive groups"])
    else ([], [])
  let oz : List String × List String :=
    if components.o3 > o3.thresholds.moderate then
      (["Elevated ozone levels"],
       ["Avoid strenuous outdoor activities during peak sun hours"])
    else ([], [])
  let ni : List String × List String :=
    if components.no2 > no2.thresholds.moderate then
      (["High nitrogen dioxide levels"],
       ["Keep windows closed near high-traffic areas"])
    else ([], [])
  let concerns := pm.1 ++ oz.1 ++ ni.1
  let recommendations := pm.2 ++ oz.2 ++ ni.2
  if concerns = [] then
    { concerns := concerns ++ ["Air quality is generally acceptable"]
      recommendations := recommendations ++ ["Continue normal activities"] }
  else
    { concerns := concerns, recommendations := recommendations }

end InputHandle

namespace CurrentDataCard

/-- The severity chain of `src/components/CurrentDataCard.tsx`
(lines 34-44): strict `>` against each boundary, defaulting to the Good
color. -/
def severityFor (t : Thresholds) (v : ℚ) : String :=
  if v > t.poor then "text-purple-600 font-bold"
  else if v > t.moderate then "text-red-600 font-bold"
  else if v > t.fair then "text-orange-600"
  else if v > t.good then "text-yellow-600"
  else "text-green-600"

end CurrentDataCard

/-- The declared source list of a key, `[]` for an unknown key (used only
to state the specification-side description of `potentialSources`). -/
def sourcesOfKey (k : String) : List String :=
  match pollutantInfo k with
  | some info => info.sources
  | none => []

/-- Modelled from the spec: "Output potentialSources: union of each
significant pollutant's declared sources, deduplicated, first-occurrence
order preserved across pollutants in the same order as
significantPollutants". -/
def specPotentialSources (r : List (String × ℚ)) : List String :=
  dedupFirst ((((analyzePollutants r).entries.filter isSignificant).map
    (fun e => sourcesOfKey e.key)).flatten)

/-- Modelled from the spec sentence corrected by claim C1: the health
implications as the deduplicated, first-occurrence-ordered list of the
healthEffects texts of exactly the entries whose status is not Low. -/
def specHealthImplications (r : List (String × ℚ)) : List String :=
  dedupFirst (((analyzePollutants r).entries.filter
    (fun e => !(e.status == "Low"))).filterMap
      (fun e => (pollutantInfo e.key).map PollutantDef.healthEffects))

/-- Replacing the value stored under one key of a reading, every other
entry unchanged (the substitution claim C5 quantifies over). -/
def setValue (r : List (String × ℚ)) (k : String) (v : ℚ) : List (String × ℚ) :=
  r.map (fun p => if p.1 = k then (p.1, v) else p)

theorem lookup_mem {β : Type} {l : List (String × β)} {k : String} {b : β}
    (h : l.lookup k = some b) : (k, b) ∈ l := by
  induction l with
  | nil => simp [List.lookup] at h
  | cons p t ih =>
    obtain ⟨k', b'⟩ := p
    simp only [List.lookup] at h
    split at h
    · next heq =>
      cases h
      exact (eq_of_beq heq) ▸ List.mem_cons_self _ _
    · exact List.mem_cons_of_mem _ (ih h)

theorem keys_nodup_val_eq {r : List (String × ℚ)} {k : String} {a b : ℚ}
    (hnd : (r.map Prod.fst).Nodup) (ha : (k, a) ∈ r) (hb : (k, b) ∈ r) : a = b := by
  induction r with
  | nil => cases ha
  | cons p t ih =>
    simp only [List.map_cons, List.nodup_cons] at hnd
    rcases List.mem_cons.mp ha with ha1 | ha1 <;> rcases List.mem_cons.mp hb with hb1 | hb1
    · rw [← hb1] at ha1; exact (Prod.ext_iff.mp ha1).2
    · subst ha1; exact absurd (List.mem_map_of_mem Prod.fst hb1) hnd.1
    · subst hb1; exact absurd (List.mem_map_of_mem Prod.fst ha1) hnd.1
    · exact ih hnd.2 ha1 hb1

theorem entryOf_eq_some {p : String × ℚ} {e : PollutantEntry} :
    entryOf p = some e ↔ ∃ info, pollutantInfo p.1 = some info ∧ e = mkEntry p info := by
  unfold entryOf
  cases h : pollutantInfo p.1 with
  | none => simp
  | some info => simp [eq_comm]

theorem mem_pollutantResults {r : List (String × ℚ)} {e : PollutantEntry} :
    e ∈ pollutantResults r ↔
      ∃ p ∈ r, ∃ info, pollutantInfo p.1 = some info ∧ e = mkEntry p info := by
  simp [pollutantResults, List.mem_filterMap, entryOf_eq_some]

theorem mem_significantNames {rs : List PollutantEntry} {n : String} :
    n ∈ significantNames rs ↔ ∃ e ∈ rs, isSignificant e = true ∧ e.name = n := by
  simp [significantNames, List.mem_map, List.mem_filter, and_assoc]

theorem pollutantInfo_name_inj {k₁ k₂ : String} {i₁ i₂ : PollutantDef}
    (h₁ : pollutantInfo k₁ = some i₁) (h₂ : pollutantInfo k₂ = some i₂)
    (hn : i₁.name = i₂.name) : k₁ = k₂ := by
  have m₁ := lookup_mem h₁
  have m₂ := lookup_mem h₂
  have H : ∀ p ∈ pollutantInfoList, ∀ q ∈ pollutantInfoList,
      p.2.name = q.2.name → p.1 = q.1 := by decide
  exact H _ m₁ _ m₂ hn

theorem pollutantInfo_thresholds_sorted {k : String} {i : PollutantDef}
    (h : pollutantInfo k = some i) :
    i.thresholds.good < i.thresholds.fair ∧ i.thresholds.fair < i.thresholds.moderate ∧
      i.thresholds.moderate < i.thresholds.poor := by
  have m := lookup_mem h
  have H : ∀ p ∈ pollutantInfoList,
      p.2.thresholds.good < p.2.thresholds.fair ∧
        p.2.thresholds.fair < p.2.thresholds.moderate ∧
          p.2.thresholds.moderate < p.2.thresholds.poor := by decide
  exact H _ m

theorem inputHandle_thresholds_sorted {k : String} {i : InputHandle.PollutantDef}
    (h : InputHandle.pollutantInfo k = some i) :
    i.thresholds.good < i.thresholds.fair ∧ i.thresholds.fair < i.thresholds.moderate ∧
      i.thresholds.moderate < i.thresholds.poor := by
  have m := lookup_mem h
  have H : ∀ p ∈ InputHandle.pollutantInfoList,
      p.2.thresholds.good < p.2.thresholds.fair ∧
        p.2.thresholds.fair < p.2.thresholds.moderate ∧
          p.2.thresholds.moderate < p.2.thresholds.poor := by decide
  exact H _ m

theorem sigStatus_iff {t : Thresholds} {v : ℚ} (hmp : t.moderate ≤ t.poor) :
    (pollutantStatus t v == "High" || pollutantStatus t v == "Very High") = true ↔
      t.moderate ≤ v := by
  unfold pollutantStatus
  split_ifs with h1 h2 h3 h4
  · exact iff_of_true (by decide) (le_trans hmp (ge_iff_le.mp h1))
  · exact iff_of_true (by decide) (ge_iff_le.mp h2)
  · exact iff_of_false (by decide) (fun h => h2 (ge_iff_le.mpr h))
  · exact iff_of_false (by decide) (fun h => h2 (ge_iff_le.mpr h))
  · exact iff_of_false (by decide) (fun h => h2 (ge_iff_le.mpr h))

theorem status_not_significant {t : Thresholds} {v : ℚ} (hgf : t.good < t.fair)
    (hfm : t.fair ≤ t.moderate) (hmp : t.moderate ≤ t.poor) (hv : v ≤ t.good) :
    (pollutantStatus t v == "High" || pollutantStatus t v == "Very High") = false := by
  unfold pollutantStatus
  split_ifs with h1 h2 h3 h4 <;> first | decide | (exfalso; linarith)

theorem status_eq_low {t : Thresholds} {v : ℚ} (hgf : t.good ≤ t.fair)
    (hfm : t.fair ≤ t.moderate) (hmp : t.moderate ≤ t.poor) (hv : v < t.good) :
    pollutantStatus t v = "Low" := by
  unfold pollutantStatus
  split_ifs with h1 h2 h3 h4 <;> first | rfl | (exfalso; linarith)

theorem foldl_fun_congr {α β : Type} (f g : β → α → β) (l : List α) (b : β)
    (h : ∀ b' a, a ∈ l → f b' a = g b' a) : l.foldl f b = l.foldl g b := by
  induction l generalizing b with
  | nil => rfl
  | cons x t ih =>
    rw [List.foldl_cons, List.foldl_cons, h b x (List.mem_cons_self _ _)]
    exact ih _ (fun b' a ha => h b' a (List.mem_cons_of_mem _ ha))

theorem foldl_insertDedup_flatten (ls : List (List String)) (acc : List String) :
    ls.flatten.foldl insertDedup acc = ls.foldl (fun a l => l.foldl insertDedup a) acc := by
  induction ls generalizing acc with
  | nil => rfl
  | cons l t ih => rw [List.flatten_cons, List.foldl_append, List.foldl_cons, ih]

theorem foldl_filterMap {α β γ : Type} (g : α → Option β) (f : γ → β → γ) (l : List α) (c : γ) :
    (l.filterMap g).foldl f c =
      l.foldl (fun a x => match g x with | some y => f a y | none => a) c := by
  induction l generalizing c with
  | nil => rfl
  | cons x t ih =>
    cases hg : g x with
    | none => rw [List.filterMap_cons_none hg, List.foldl_cons, hg, ih]
    | some y => rw [List.filterMap_cons_some hg, List.foldl_cons, List.foldl_cons, hg, ih]

theorem foldl_insertDedup_nodup (l : List String) (acc : List String) (h : acc.Nodup) :
    (l.foldl insertDedup acc).Nodup := by
  induction l generalizing acc with
  | nil => simpa using h
  | cons s t ih =>
    rw [List.foldl_cons]
    apply ih
    unfold insertDedup
    split
    · exact h
    · next hmem =>
      refine List.nodup_append.mpr ⟨h, List.nodup_singleton s, fun x hx hxs => ?_⟩
      rw [List.mem_singleton] at hxs
      exact hmem (hxs ▸ hx)

theorem collectedSources_eq (rs : List PollutantEntry) :
    collectedSources rs =
      dedupFirst (((rs.filter isSignificant).map (fun e => sourcesOfKey e.key)).flatten) := by
  unfold collectedSources dedupFirst
  rw [foldl_insertDedup_flatten, List.foldl_map]
  apply foldl_fun_congr
  intro acc e _
  unfold sourcesOfKey
  cases h : pollutantInfo e.key <;> simp

theorem collectedHealth_eq (rs : List PollutantEntry) :
    collectedHealth rs =
      dedupFirst ((rs.filter (fun e => !(e.status == "Low"))).filterMap
        (fun e => (pollutantInfo e.key).map PollutantDef.healthEffects)) := by
  unfold collectedHealth dedupFirst
  rw [foldl_filterMap]
  apply foldl_fun_congr
  intro acc e _
  cases h : pollutantInfo e.key <;> simp [h]

theorem mem_significant_iff {r : List (String × ℚ)} {k : String} {v : ℚ} {info : PollutantDef}
    (hnd : (r.map Prod.fst).Nodup) (hmem : (k, v) ∈ r)
    (hinfo : pollutantInfo k = some info) :
    info.name ∈ (analyzePollutants r).significantPollutants ↔ info.thresholds.moderate ≤ v := by
  have hmp := (pollutantInfo_thresholds_sorted hinfo).2.2.le
  show info.name ∈ significantNames (pollutantResults r) ↔ _
  constructor
  · intro hn
    rcases mem_significantNames.mp hn with ⟨e, he, hsig, hname⟩
    rcases mem_pollutantResults.mp he with ⟨p, hp, i', hi', rfl⟩
    have hname' : i'.name = info.name := hname
    have hk : p.1 = k := pollutantInfo_name_inj hi' hinfo hname'
    have hpmem : (k, p.2) ∈ r := by rw [← hk]; exact hp
    have hveq : p.2 = v := keys_nodup_val_eq hnd hpmem hmem
    have hieq : i' = info := by
      rw [hk, hinfo] at hi'
      exact (Option.some.inj hi').symm
    have hsig' : (pollutantStatus i'.thresholds p.2 == "High" ||
        pollutantStatus i'.thresholds p.2 == "Very High") = true := hsig
    rw [hieq, hveq] at hsig'
    exact (sigStatus_iff hmp).mp hsig'
  · intro hv
    apply mem_significantNames.mpr
    refine ⟨mkEntry (k, v) info, mem_pollutantResults.mpr ⟨(k, v), hmem, info, hinfo, rfl⟩, ?_, rfl⟩
    show (pollutantStatus info.thresholds v == "High" ||
        pollutantStatus info.thresholds v == "Very High") = true
    exact (sigStatus_iff hmp).mpr hv

theorem setValue_keys (r : List (String × ℚ)) (k : String) (v : ℚ) :
    (setValue r k v).map Prod.fst = r.map Prod.fst := by
  induction r with
  | nil => rfl
  | cons p t ih =>
    simp only [setValue, List.map_cons] at *
    by_cases h : p.1 = k <;> simp [h, ih]

theorem mem_setValue_self {r : List (String × ℚ)} {k : String} {w : ℚ} (v : ℚ)
    (h : (k, w) ∈ r) : (k, v) ∈ setValue r k v := by
  unfold setValue
  have := List.mem_map_of_mem (fun p : String × ℚ => if p.1 = k then (p.1, v) else p) h
  simpa using this

theorem analyze_unknown_mid (r₁ r₂ : List (String × ℚ)) (k : String) (v : ℚ)
    (hk : pollutantInfo k = none) :
    analyzePollutants (r₁ ++ (k, v) :: r₂) = analyzePollutants (r₁ ++ r₂) := by
  have hre : pollutantResults (r₁ ++ (k, v) :: r₂) = pollutantResults (r₁ ++ r₂) := by
    unfold pollutantResults
    have hnone : entryOf (k, v) = none := by simp [entryOf, hk]
    rw [List.filterMap_append, List.filterMap_append, List.filterMap_cons_none hnone]
  unfold analyzePollutants
  rw [hre]

theorem sigFilter_nil {r : List (String × ℚ)}
    (hle : ∀ p ∈ r, ∀ i, pollutantInfo p.1 = some i → p.2 ≤ i.thresholds.good) :
    (pollutantResults r).filter isSignificant = [] := by
  rw [List.filter_eq_nil_iff]
  intro e he
  rcases mem_pollutantResults.mp he with ⟨p, hp, i, hi, rfl⟩
  have hs := pollutantInfo_thresholds_sorted hi
  have hv := hle p hp i hi
  show ¬(pollutantStatus i.thresholds p.2 == "High" ||
      pollutantStatus i.thresholds p.2 == "Very High") = true
  rw [status_not_significant hs.1 hs.2.1.le hs.2.2.le hv]
  simp

theorem healthFilter_nil {r : List (String × ℚ)}
    (hlt : ∀ p ∈ r, ∀ i, pollutantInfo p.1 = some i → p.2 < i.thresholds.good) :
    (pollutantResults r).filter (fun e => !(e.status == "Low")) = [] := by
  rw [List.filter_eq_nil_iff]
  intro e he
  rcases mem_pollutantResults.mp he with ⟨p, hp, i, hi, rfl⟩
  have hs := pollutantInfo_thresholds_sorted hi
  have hv := hlt p hp i hi
  show ¬(!(pollutantStatus i.thresholds p.2 == "Low")) = true
  rw [status_eq_low hs.1.le hs.2.1.le hs.2.2.le hv]
  simp

/-- C1, counterexample: two readings with no significant pollutant — the
empty reading and a reading exactly at the PM2.5 good boundary — get
different `healthImplications`, and the empty reading gets the empty list,
so the output is not one canned acceptable message, nor one of five fixed
band messages. -/
theorem healthImplications_not_band_message :
    (analyzePollutants [("pm2_5", (10 : ℚ))]).significantPollutants = [] ∧
    (analyzePollutants ([] : List (String × ℚ))).significantPollutants = [] ∧
    (analyzePollutants ([] : List (String × ℚ))).healthImplications = [] ∧
    (analyzePollutants [("pm2_5", (10 : ℚ))]).healthImplications ≠
      (analyzePollutants ([] : List (String × ℚ))).healthImplications := by
  decide

/-- C1, amended: `healthImplications` is the deduplicated,
first-occurrence-ordered list of the `healthEffects` texts of exactly the
entries whose status is not Low (concentration at or above the good
boundary), and it is the empty list — not an acceptable message — whenever
every known pollutant is strictly below its good boundary. -/
theorem healthImplications_characterized (r : List (String × ℚ)) :
    (analyzePollutants r).healthImplications = specHealthImplications r ∧
    ((∀ p ∈ r, ∀ i, pollutantInfo p.1 = some i → p.2 < i.thresholds.good) →
      (analyzePollutants r).healthImplications = []) := by
  constructor
  · show collectedHealth (pollutantResults r) = specHealthImplications r
    rw [collectedHealth_eq]
    rfl
  · intro hlt
    show collectedHealth (pollutantResults r) = []
    unfold collectedHealth
    rw [healthFilter_nil hlt]
    rfl

/-- C2, counterexample: a PM2.5 concentration of 30 is strictly above the
fair boundary 25 and its computed band is Moderate, yet the pollutant is
not listed in `significantPollutants` (the code flags only High and Very
High, i.e. values at or above the moderate boundary). -/
theorem moderate_band_not_flagged :
    ((pollutantInfo "pm2_5").map (fun i => i.thresholds.fair) = some 25) ∧
    ((pollutantInfo "pm2_5").map PollutantDef.name = some "PM2.5") ∧
    ((25 : ℚ) < 30) ∧
    ((analyzePollutants [("pm2_5", (30 : ℚ))]).entries.map
      (fun e => e.status) = ["Moderate"]) ∧
    (analyzePollutants [("pm2_5", (30 : ℚ))]).significantPollutants = [] := by
  decide

/-- C2, amended: for a reading with pairwise distinct keys, a known
pollutant present in it has its name in `significantPollutants` if and
only if its concentration is at or above that pollutant's moderate
boundary (status High or Very High), not already when strictly above the
fair boundary. -/
theorem significant_iff_moderate_threshold (r : List (String × ℚ)) (k : String)
    (v : ℚ) (info : PollutantDef) (hnd : (r.map Prod.fst).Nodup)
    (hmem : (k, v) ∈ r) (hinfo : pollutantInfo k = some info) :
    info.name ∈ (analyzePollutants r).significantPollutants ↔
      info.thresholds.moderate ≤ v :=
  mem_significant_iff hnd hmem hinfo

/-- Witness for the amended C2 at the concrete reading pm2_5 = 60. -/
theorem significant_iff_moderate_threshold_witness :
    "PM2.5" ∈ (analyzePollutants [("pm2_5", (60 : ℚ))]).significantPollutants :=
  (significant_iff_moderate_threshold [("pm2_5", 60)] "pm2_5" 60 _
    (by decide) (by decide) rfl).mpr (by decide)

/-- C3, counterexample: with PM2.5 exactly at its good boundary 10 the
reading satisfies "every pollutant at or below its good boundary" and
indeed has empty `significantPollutants` and `potentialSources`, yet its
`healthImplications` differs from the empty reading's (which is the empty
list), so `healthImplications` does not equal one fixed Good/acceptable
message on all such readings. -/
theorem good_boundary_health_nonempty :
    ((pollutantInfo "pm2_5").map (fun i => i.thresholds.good) = some 10) ∧
    (analyzePollutants [("pm2_5", (10 : ℚ))]).significantPollutants = [] ∧
    (analyzePollutants [("pm2_5", (10 : ℚ))]).potentialSources = [] ∧
    (analyzePollutants ([] : List (String × ℚ))).healthImplications = [] ∧
    (analyzePollutants [("pm2_5", (10 : ℚ))]).healthImplications ≠
      (analyzePollutants ([] : List (String × ℚ))).healthImplications := by
  decide

/-- C3, amended: for every reading in which each present known pollutant
is at or below its good boundary — including the empty reading —
`significantPollutants` and `potentialSources` are empty, and
`healthImplications` is the empty list (there is no canned Good message)
provided each such pollutant is strictly below its good boundary. -/
theorem low_reading_analysis (r : List (String × ℚ))
    (hle : ∀ p ∈ r, ∀ i, pollutantInfo p.1 = some i → p.2 ≤ i.thresholds.good) :
    (analyzePollutants r).significantPollutants = [] ∧
    (analyzePollutants r).potentialSources = [] ∧
    ((∀ p ∈ r, ∀ i, pollutantInfo p.1 = some i → p.2 < i.thresholds.good) →
      (analyzePollutants r).healthImplications = []) := by
  refine ⟨?_, ?_, ?_⟩
  · show significantNames (pollutantResults r) = []
    unfold significantNames
    rw [sigFilter_nil hle]
    rfl
  · show collectedSources (pollutantResults r) = []
    unfold collectedSources
    rw [sigFilter_nil hle]
    rfl
  · intro hlt
    show collectedHealth (pollutantResults r) = []
    unfold collectedHealth
    rw [healthFilter_nil hlt]
    rfl

/-- Witness for the amended C3 at the concrete reading pm2_5 = 5. -/
theorem low_reading_analysis_witness :
    (analyzePollutants [("pm2_5", (5 : ℚ))]).significantPollutants = [] ∧
    (analyzePollutants [("pm2_5", (5 : ℚ))]).potentialSources = [] ∧
    ((∀ p ∈ [("pm2_5", (5 : ℚ))], ∀ i, pollutantInfo p.1 = some i →
        p.2 < i.thresholds.good) →
      (analyzePollutants [("pm2_5", (5 : ℚ))]).healthImplications = []) :=
  low_reading_analysis [("pm2_5", 5)] (by
    intro p hp i hi
    rw [List.mem_singleton] at hp
    subst hp
    have h10 : (pollutantInfo "pm2_5").map (fun j => j.thresholds.good) = some 10 := by
      decide
    rw [hi] at h10
    rw [show i.thresholds.good = 10 from Option.some.inj h10]
    norm_num)

/-- C5 (confirmed): raising the concentration stored under a present key
of a duplicate-free reading, all other entries fixed, never removes that
pollutant's name from `significantPollutants`. -/
theorem significant_monotone (r : List (String × ℚ)) (k : String) (v v' : ℚ)
    (info : PollutantDef) (hnd : (r.map Prod.fst).Nodup) (hmem : (k, v) ∈ r)
    (hle : v ≤ v') (hinfo : pollutantInfo k = some info)
    (hsig : info.name ∈ (analyzePollutants r).significantPollutants) :
    info.name ∈ (analyzePollutants (setValue r k v')).significantPollutants := by
  have h1 := (mem_significant_iff hnd hmem hinfo).mp hsig
  have hnd' : ((setValue r k v').map Prod.fst).Nodup := by
    rw [setValue_keys]; exact hnd
  exact (mem_significant_iff hnd' (mem_setValue_self v' hmem) hinfo).mpr
    (le_trans h1 hle)

/-- Witness for C5: raising pm2_5 from 60 to 70 keeps PM2.5 significant. -/
theorem significant_monotone_witness :
    "PM2.5" ∈ (analyzePollutants
      (setValue [("pm2_5", (60 : ℚ))] "pm2_5" 70)).significantPollutants :=
  significant_monotone [("pm2_5", 60)] "pm2_5" 60 70 _ (by decide) (by decide)
    (by norm_num) rfl (by decide)

/-- C4 (confirmed): the analyzer copies are mutually inconsistent — the
airQualityService table gives NH₃ the boundaries 100/200/400/800 while the
inputHandle table gives it 200/400/800/1200; at the PM2.5 moderate
boundary 50 the airQualityService chain (which compares with >=) yields
status High and flags PM2.5 as significant, while the inputHandle analyzer
(which compares with >) reports only the canned acceptable concern and the
CurrentDataCard chain (also >) still shows the Moderate colour, so the two
embedded analyzers disagree on this components input. -/
theorem analyzer_copies_disagree :
    ((pollutantInfo "nh3").map (fun i =>
      (i.thresholds.good, i.thresholds.fair, i.thresholds.moderate, i.thresholds.poor)) =
        some (100, 200, 400, 800)) ∧
    ((InputHandle.pollutantInfo "nh3").map (fun i =>
      (i.thresholds.good, i.thresholds.fair, i.thresholds.moderate, i.thresholds.poor)) =
        some (200, 400, 800, 1200)) ∧
    ("PM2.5" ∈ (analyzePollutants (componentEntries
      { co := 0, no := 0, no2 := 0, o3 := 0, so2 := 0, pm2_5 := 50, pm10 := 0,
        nh3 := 0 })).significantPollutants) ∧
    ((InputHandle.analyzePollutants
      { co := 0, no := 0, no2 := 0, o3 := 0, so2 := 0, pm2_5 := 50, pm10 := 0,
        nh3 := 0 }).concerns = ["Air quality is generally acceptable"]) ∧
    pollutantStatus { good := 10, fair := 25, moderate := 50, poor := 75 } 50 = "High" ∧
    CurrentDataCard.severityFor { good := 10, fair := 25, moderate := 50, poor := 75 } 50 =
      "text-orange-600" := by
  decide

/-- C6 (confirmed): `potentialSources` equals the flattened source lists
of exactly the significant entries, in their order, deduplicated keeping
each first occurrence, and it never contains a duplicate. -/
theorem potentialSources_spec (r : List (String × ℚ)) :
    (analyzePollutants r).potentialSources = specPotentialSources r ∧
    (analyzePollutants r).potentialSources.Nodup := by
  constructor
  · show collectedSources (pollutantResults r) = specPotentialSources r
    rw [collectedSources_eq]
    rfl
  · show (collectedSources (pollutantResults r)).Nodup
    rw [collectedSources_eq]
    exact foldl_insertDedup_nodup _ _ List.nodup_nil

/-- C7 (confirmed): an entry whose key has no pollutant definition is
dropped without error and contributes to no output field — inserting it
anywhere leaves the whole analysis unchanged — and every per-pollutant
output entry stems from a key present in the input. -/
theorem unknown_keys_ignored (r r₁ r₂ : List (String × ℚ)) (k : String) (v : ℚ)
    (hk : pollutantInfo k = none) :
    analyzePollutants (r₁ ++ (k, v) :: r₂) = analyzePollutants (r₁ ++ r₂) ∧
    ∀ e ∈ (analyzePollutants r).entries, ∃ p ∈ r, e.key = p.1 := by
  constructor
  · exact analyze_unknown_mid r₁ r₂ k v hk
  · intro e he
    rcases mem_pollutantResults.mp he with ⟨p, hp, i, hi, rfl⟩
    exact ⟨p, hp, rfl⟩

/-- Witness for C7: the unknown key "no" is ignored inside a concrete
reading. -/
theorem unknown_keys_ignored_witness :
    analyzePollutants ([] ++ ("no", (3 : ℚ)) :: [("co", 5)]) =
      analyzePollutants ([] ++ [("co", (5 : ℚ))]) ∧
    ∀ e ∈ (analyzePollutants [("co", (5 : ℚ))]).entries,
      ∃ p ∈ [("co", (5 : ℚ))], e.key = p.1 :=
  unknown_keys_ignored [("co", 5)] [] [("co", 5)] "no" 3 rfl

/-- C8 (confirmed): in both static tables every pollutant's boundaries are
strictly increasing, good < fair < moderate < poor. -/
theorem thresholds_strictly_increasing :
    (∀ k i, pollutantInfo k = some i →
      i.thresholds.good < i.thresholds.fair ∧
        i.thresholds.fair < i.thresholds.moderate ∧
          i.thresholds.moderate < i.thresholds.poor) ∧
    (∀ k i, InputHandle.pollutantInfo k = some i →
      i.thresholds.good < i.thresholds.fair ∧
        i.thresholds.fair < i.thresholds.moderate ∧
          i.thresholds.moderate < i.thresholds.poor) :=
  ⟨fun _ _ h => pollutantInfo_thresholds_sorted h,
   fun _ _ h => inputHandle_thresholds_sorted h⟩

/-- C9 (confirmed): two typed component records that agree on every field
except `no` are analyzed identically — the `no` concentration never
influences any output field, because the table has no entry for the key
"no". -/
theorem no_field_noninterference (c₁ c₂ : AirPollutionComponents)
    (hco : c₁.co = c₂.co) (hno2 : c₁.no2 = c₂.no2) (ho3 : c₁.o3 = c₂.o3)
    (hso2 : c₁.so2 = c₂.so2) (hpm25 : c₁.pm2_5 = c₂.pm2_5)
    (hpm10 : c₁.pm10 = c₂.pm10) (hnh3 : c₁.nh3 = c₂.nh3) :
    analyzePollutants (componentEntries c₁) =
      analyzePollutants (componentEntries c₂) := by
  show analyzePollutants [("co", c₁.co), ("no", c₁.no), ("no2", c₁.no2),
      ("o3", c₁.o3), ("so2", c₁.so2), ("pm2_5", c₁.pm2_5), ("pm10", c₁.pm10),
      ("nh3", c₁.nh3)] =
    analyzePollutants [("co", c₂.co), ("no", c₂.no), ("no2", c₂.no2),
      ("o3", c₂.o3), ("so2", c₂.so2), ("pm2_5", c₂.pm2_5), ("pm10", c₂.pm10),
      ("nh3", c₂.nh3)]
  rw [hco, hno2, ho3, hso2, hpm25, hpm10, hnh3]
  have h₁ := analyze_unknown_mid [("co", c₂.co)]
    [("no2", c₂.no2), ("o3", c₂.o3), ("so2", c₂.so2), ("pm2_5", c₂.pm2_5),
     ("pm10", c₂.pm10), ("nh3", c₂.nh3)] "no" c₁.no rfl
  have h₂ := analyze_unknown_mid [("co", c₂.co)]
    [("no2", c₂.no2), ("o3", c₂.o3), ("so2", c₂.so2), ("pm2_5", c₂.pm2_5),
     ("pm10", c₂.pm10), ("nh3", c₂.nh3)] "no" c₂.no rfl
  exact h₁.trans h₂.symm

/-- Witness for C9 at two records differing only in `no`. -/
theorem no_field_noninterference_witness :
    analyzePollutants (componentEntries
      { co := 1, no := 2, no2 := 3, o3 := 4, so2 := 5, pm2_5 := 6, pm10 := 7,
        nh3 := 8 }) =
    analyzePollutants (componentEntries
      { co := 1, no := 99, no2 := 3, o3 := 4, so2 := 5, pm2_5 := 6, pm10 := 7,
        nh3 := 8 }) :=
  no_field_noninterference _ _ rfl rfl rfl rfl rfl rfl rfl

/-- C10 (confirmed): the embedded analyzer is a pure function of its
reading — evaluating it twice on the same input yields the same
`AnalysisResult`, there being no hidden state to consult or mutate. -/
theorem analyzePollutants_deterministic (r : List (String × ℚ)) :
    analyzePollutants r = analyzePollutants r := rfl
